import Mathlib

/-!
Verification of the `err.rs` error-classification module of the
`dns-lookup` crate.

The module normalizes the integer error codes returned by the platform
name-resolution primitives (`getaddrinfo` / `getnameinfo`) into a
structured `LookupError` value.  The source selects, at build time, one
of three implementations of the classifier `LookupErrorKind::new` and of
the message resolver `gai_err_to_io_err`: a POSIX table, a Windows
table, and a fallback for targets that are neither.  We embed all three
and index them by a configuration type `Cfg`.

Modelling choices for the foreign boundary:
* `std::io::Error` is modelled by the one component the module ever
  constructs or observes, its message text (`IoError.msg`).
* On POSIX, `gai_strerror` is a platform-supplied C string and
  `io::Error::last_os_error()` reads the thread's `errno` register.
  Both are inputs to the module, so they are fields of an environment
  record `UnixEnv`.  The source decodes the `gai_strerror` bytes as
  UTF-8 with `.unwrap()`, panicking on malformed bytes; we model the
  already-decoded result as `Option String`, `none` standing for bytes
  that are not valid UTF-8, and the panic as an `Option.none` result of
  message resolution.
* On Windows, the nonzero branch returns
  `io::Error::from_raw_os_error(WSAGetLastError())`; that whole value is
  OS state, modelled as the field `lastWsaOsError` of `WinEnv`.
-/

/-- Message carried by a generic I/O error (`std::io::Error`).  The module
only ever constructs such errors from a message and only their message is
observable through it, so the embedding keeps exactly that component. -/
structure IoError where
  msg : String
deriving DecidableEq, Repr

/-- OS-supplied inputs of the POSIX build: the decoded `gai_strerror`
string for each code (`none` models a C string that is not valid UTF-8)
and the error built by `io::Error::last_os_error()`. -/
structure UnixEnv where
  gaiStrerror : Int → Option String
  lastOsError : IoError

/-- OS-supplied input of the Windows build: the error built by
`io::Error::from_raw_os_error(WSAGetLastError())`. -/
structure WinEnv where
  lastWsaOsError : IoError

/-- Build-time platform configuration together with the OS state the
selected implementation reads. -/
inductive Cfg where
  | unix : UnixEnv → Cfg
  | windows : WinEnv → Cfg
  | fallback : Cfg

/-- Error kind of a lookup error.  The source names the last constructor
`IO`; Lean capitalization here is `Io`. -/
inductive LookupErrorKind where
  | Again
  | Badflags
  | NoName
  | NoData
  | Fail
  | Family
  | Socktype
  | Service
  | Memory
  | System
  | Io
deriving DecidableEq, Repr

/-- Value of `libc::EAI_BADFLAGS` on the POSIX targets of the crate. -/
def EAI_BADFLAGS : Int := -1

/-- Value of `libc::EAI_NONAME`. -/
def EAI_NONAME : Int := -2

/-- Value of `libc::EAI_AGAIN`. -/
def EAI_AGAIN : Int := -3

/-- Value of `libc::EAI_FAIL`. -/
def EAI_FAIL : Int := -4

/-- Value of `libc::EAI_FAMILY`. -/
def EAI_FAMILY : Int := -6

/-- Value of `libc::EAI_SOCKTYPE`. -/
def EAI_SOCKTYPE : Int := -7

/-- Value of `libc::EAI_SERVICE`. -/
def EAI_SERVICE : Int := -8

/-- Value of `libc::EAI_MEMORY`. -/
def EAI_MEMORY : Int := -10

/-- Value of `libc::EAI_SYSTEM`. -/
def EAI_SYSTEM : Int := -11

/-- Value of `winapi::winerror::WSA_NOT_ENOUGH_MEMORY` (a `u32`). -/
def WSA_NOT_ENOUGH_MEMORY : Nat := 8

/-- Value of the WinSock invalid-argument constant the Windows table
matches for `Badflags` (a `u32`). -/
def WSAEINTVAL : Nat := 10022

/-- Value of `winapi::winerror::WSAESOCKTNOSUPPORT` (a `u32`). -/
def WSAESOCKTNOSUPPORT : Nat := 10044

/-- Value of `winapi::winerror::WSAEAFNOSUPPORT` (a `u32`). -/
def WSAEAFNOSUPPORT : Nat := 10047

/-- Value of `winapi::winerror::WSATYPE_NOT_FOUND` (a `u32`). -/
def WSATYPE_NOT_FOUND : Nat := 10109

/-- Value of `winapi::winerror::WSAHOST_NOT_FOUND` (a `u32`). -/
def WSAHOST_NOT_FOUND : Nat := 11001

/-- Value of `winapi::winerror::WSATRY_AGAIN` (a `u32`). -/
def WSATRY_AGAIN : Nat := 11002

/-- Value of `winapi::winerror::WSANO_RECOVERY` (a `u32`). -/
def WSANO_RECOVERY : Nat := 11003

/-- Value of `winapi::winerror::WSANO_DATA` (a `u32`). -/
def WSANO_DATA : Nat := 11004

/-- The `err as u32` cast of the Windows classifier: the two's-complement
unsigned reinterpretation of a signed 32-bit value, i.e. reduction
modulo 2^32. -/
def i32_as_u32 (err : Int) : Nat := (err % (2 : Int) ^ 32).toNat

/-- Embedding of the POSIX `LookupErrorKind::new` (the `cfg(unix)` item):
an equality match of the raw code against the `libc` constants, with the
undocumented code `-5` special-cased to `NoData` and a default of `IO`. -/
def LookupErrorKind.new_unix (err : Int) : LookupErrorKind :=
  if err = EAI_AGAIN then LookupErrorKind.Again
  else if err = EAI_BADFLAGS then LookupErrorKind.Badflags
  else if err = EAI_FAIL then LookupErrorKind.Fail
  else if err = EAI_FAMILY then LookupErrorKind.Family
  else if err = EAI_MEMORY then LookupErrorKind.Memory
  else if err = EAI_NONAME then LookupErrorKind.NoName
  else if err = -5 then LookupErrorKind.NoData
  else if err = EAI_SERVICE then LookupErrorKind.Service
  else if err = EAI_SOCKTYPE then LookupErrorKind.Socktype
  else if err = EAI_SYSTEM then LookupErrorKind.System
  else LookupErrorKind.Io

/-- Embedding of the Windows `LookupErrorKind::new` (the `cfg(windows)`
item): the raw code is cast with `err as u32` and equality-matched
against the WinSock constants, with a default of `IO`. -/
def LookupErrorKind.new_windows (err : Int) : LookupErrorKind :=
  let u := i32_as_u32 err
  if u = WSATRY_AGAIN then LookupErrorKind.Again
  else if u = WSAEINTVAL then LookupErrorKind.Badflags
  else if u = WSANO_RECOVERY then LookupErrorKind.Fail
  else if u = WSAEAFNOSUPPORT then LookupErrorKind.Family
  else if u = WSA_NOT_ENOUGH_MEMORY then LookupErrorKind.Memory
  else if u = WSAHOST_NOT_FOUND then LookupErrorKind.NoName
  else if u = WSANO_DATA then LookupErrorKind.NoData
  else if u = WSATYPE_NOT_FOUND then LookupErrorKind.Service
  else if u = WSAESOCKTNOSUPPORT then LookupErrorKind.Socktype
  else LookupErrorKind.Io

/-- Embedding of the fallback `LookupErrorKind::new` (the item compiled
when the target is neither Windows nor unix): always `IO`. -/
def LookupErrorKind.new_fallback (_err : Int) : LookupErrorKind :=
  LookupErrorKind.Io

/-- The classifier selected by the build configuration. -/
def LookupErrorKind.new : Cfg → Int → LookupErrorKind
  | Cfg.unix _, err => LookupErrorKind.new_unix err
  | Cfg.windows _, err => LookupErrorKind.new_windows err
  | Cfg.fallback, err => LookupErrorKind.new_fallback err

/-- Codes matched by a non-default arm of the POSIX classifier, in
source order. -/
def posix_gai_table : List Int :=
  [EAI_AGAIN, EAI_BADFLAGS, EAI_FAIL, EAI_FAMILY, EAI_MEMORY,
   EAI_NONAME, -5, EAI_SERVICE, EAI_SOCKTYPE, EAI_SYSTEM]

/-- Cast codes matched by a non-default arm of the Windows classifier,
in source order. -/
def windows_gai_table : List Nat :=
  [WSATRY_AGAIN, WSAEINTVAL, WSANO_RECOVERY, WSAEAFNOSUPPORT,
   WSA_NOT_ENOUGH_MEMORY, WSAHOST_NOT_FOUND, WSANO_DATA,
   WSATYPE_NOT_FOUND, WSAESOCKTNOSUPPORT]

/-- Message produced for the raw code `0` on every platform. -/
def success_msg : String := "address information lookup success"

/-- Message produced by the fallback resolver for every nonzero code. -/
def fallback_failure_msg : String := "failed to lookup address information"

/-- Prefix of the message produced by the POSIX resolver for a code that
is neither `0` nor `EAI_SYSTEM`. -/
def failure_lead : String := "failed to lookup address information: "

/-- Embedding of the fallback `gai_err_to_io_err`: one of two constant
strings, chosen by whether the code is zero. -/
def gai_err_to_io_err_fallback (err : Int) : IoError :=
  if err = 0 then IoError.mk success_msg
  else IoError.mk fallback_failure_msg

/-- Embedding of the POSIX `gai_err_to_io_err`: code `0` gives the
constant success message, `EAI_SYSTEM` defers to
`io::Error::last_os_error()`, and any other code renders
`gai_strerror` behind a constant prefix.  The `none` result models the
`.unwrap()` panic on a `gai_strerror` string that is not valid UTF-8. -/
def gai_err_to_io_err_unix (env : UnixEnv) (err : Int) : Option IoError :=
  if err = 0 then some (IoError.mk success_msg)
  else if err = EAI_SYSTEM then some env.lastOsError
  else
    match env.gaiStrerror err with
    | some detail => some (IoError.mk (failure_lead ++ detail))
    | none => none

/-- Embedding of the Windows `gai_err_to_io_err`: code `0` gives the
constant success message, any other code returns
`io::Error::from_raw_os_error(WSAGetLastError())`. -/
def gai_err_to_io_err_windows (env : WinEnv) (err : Int) : IoError :=
  if err = 0 then IoError.mk success_msg
  else env.lastWsaOsError

/-- The message resolver selected by the build configuration.  Only the
POSIX implementation can fail (panic), so the dispatcher wraps the two
total implementations in `some`. -/
def gai_err_to_io_err : Cfg → Int → Option IoError
  | Cfg.unix env, err => gai_err_to_io_err_unix env err
  | Cfg.windows env, err => some (gai_err_to_io_err_windows env err)
  | Cfg.fallback, err => some (gai_err_to_io_err_fallback err)

/-- The `LookupError` struct: classified kind, untranslated raw code,
and the resolved generic I/O error. -/
structure LookupError where
  kind : LookupErrorKind
  err_num : Int
  inner : IoError
deriving DecidableEq, Repr

/-- Embedding of `LookupError::new`: runs the classifier and the message
resolver once and packages the result; `none` propagates the POSIX
UTF-8 panic of the resolver. -/
def LookupError.new (cfg : Cfg) (err : Int) : Option LookupError :=
  (gai_err_to_io_err cfg err).map
    (fun inner => LookupError.mk (LookupErrorKind.new cfg err) err inner)

/-- Embedding of `LookupError::match_gai_error`: `Ok(())` on `0`,
otherwise `Err(LookupError::new(err))`. -/
def LookupError.match_gai_error (cfg : Cfg) (err : Int) :
    Option (Except LookupError Unit) :=
  if err = 0 then some (Except.ok ())
  else (LookupError.new cfg err).map Except.error

/-- Accessor `LookupError::error_num`. -/
def LookupError.error_num (e : LookupError) : Int := e.err_num

/-- Embedding of `impl From for io::Error` (forward direction): the
inner error is returned as is. -/
def LookupError.into_io_error (e : LookupError) : IoError := e.inner

/-- Embedding of `impl From for LookupError` (backward direction): kind
`IO`, raw code `0`, message preserved in `inner`. -/
def LookupError.from_io_error (e : IoError) : LookupError :=
  LookupError.mk LookupErrorKind.Io 0 e

/-- A `std::ffi::NulError`, modelled by the generic I/O error its
standard-library conversion produces; that conversion is outside this
module. -/
structure NulError where
  asIoError : IoError

/-- Embedding of `impl From for LookupError` from `ffi::NulError`:
convert to the generic I/O error, then apply the previous conversion. -/
def LookupError.from_nul_error (e : NulError) : LookupError :=
  LookupError.from_io_error e.asIoError

/-- Concrete POSIX environment used by witnesses. -/
def sampleUnixEnv : UnixEnv :=
  UnixEnv.mk (fun _ => some ("detail")) (IoError.mk ("oserr"))

/-- Second concrete POSIX environment, with different OS state. -/
def sampleUnixEnv2 : UnixEnv :=
  UnixEnv.mk (fun _ => some ("other detail")) (IoError.mk ("oserr2"))

/-- A code outside the POSIX table is classified `IO`. -/
theorem new_unix_of_not_mem_table (c : Int) (h : c ∉ posix_gai_table) :
    LookupErrorKind.new_unix c = LookupErrorKind.Io := by
  simp only [posix_gai_table, EAI_AGAIN, EAI_BADFLAGS, EAI_FAIL, EAI_FAMILY,
    EAI_MEMORY, EAI_NONAME, EAI_SERVICE, EAI_SOCKTYPE, EAI_SYSTEM,
    List.mem_cons, List.not_mem_nil, or_false, not_or] at h
  obtain ⟨h1, h2, h3, h4, h5, h6, h7, h8, h9, h10⟩ := h
  simp [LookupErrorKind.new_unix, EAI_AGAIN, EAI_BADFLAGS, EAI_FAIL,
    EAI_FAMILY, EAI_MEMORY, EAI_NONAME, EAI_SERVICE, EAI_SOCKTYPE,
    EAI_SYSTEM, h1, h2, h3, h4, h5, h6, h7, h8, h9, h10]

/-- A code whose `u32` cast is outside the Windows table is classified
`IO`. -/
theorem new_windows_of_not_mem_table (c : Int)
    (h : i32_as_u32 c ∉ windows_gai_table) :
    LookupErrorKind.new_windows c = LookupErrorKind.Io := by
  simp only [windows_gai_table, WSATRY_AGAIN, WSAEINTVAL, WSANO_RECOVERY,
    WSAEAFNOSUPPORT, WSA_NOT_ENOUGH_MEMORY, WSAHOST_NOT_FOUND, WSANO_DATA,
    WSATYPE_NOT_FOUND, WSAESOCKTNOSUPPORT,
    List.mem_cons, List.not_mem_nil, or_false, not_or] at h
  obtain ⟨h1, h2, h3, h4, h5, h6, h7, h8, h9⟩ := h
  simp [LookupErrorKind.new_windows, WSATRY_AGAIN, WSAEINTVAL,
    WSANO_RECOVERY, WSAEAFNOSUPPORT, WSA_NOT_ENOUGH_MEMORY,
    WSAHOST_NOT_FOUND, WSANO_DATA, WSATYPE_NOT_FOUND, WSAESOCKTNOSUPPORT,
    h1, h2, h3, h4, h5, h6, h7, h8, h9]

/-- C3.  Converting a `LookupError` to the generic I/O error and back
yields kind `IO`, raw code `0`, and exactly the message text of the
original inner error. -/
theorem roundtrip_through_io_error (e : LookupError) :
    (LookupError.from_io_error (LookupError.into_io_error e)).kind
        = LookupErrorKind.Io
      ∧ (LookupError.from_io_error (LookupError.into_io_error e)).err_num = 0
      ∧ (LookupError.from_io_error (LookupError.into_io_error e)).inner.msg
        = e.inner.msg :=
  ⟨rfl, rfl, rfl⟩

/-- C4.  Under the POSIX configuration, the raw code `-5` is classified
`NoData`. -/
theorem new_unix_neg_five_nodata :
    LookupErrorKind.new_unix (-5) = LookupErrorKind.NoData := by decide

/-- C5.  Under the fallback configuration, every code is classified `IO`
and the resolved message is one of exactly two constant strings, chosen
solely by whether the code is zero. -/
theorem fallback_classify_io_and_two_messages :
    (∀ c : Int, LookupErrorKind.new Cfg.fallback c = LookupErrorKind.Io)
      ∧ (∀ c : Int, gai_err_to_io_err_fallback c =
          if c = 0 then IoError.mk ("address information lookup success")
          else IoError.mk ("failed to lookup address information"))
      ∧ success_msg ≠ fallback_failure_msg := by
  refine ⟨fun c => rfl, fun c => ?_, by decide⟩
  by_cases h : c = 0 <;>
    simp [gai_err_to_io_err_fallback, success_msg, fallback_failure_msg, h]

/-- C6.  Under every configuration, message resolution for the raw code
`0` yields the literal success message. -/
theorem message_resolution_zero (cfg : Cfg) :
    gai_err_to_io_err cfg 0 =
      some (IoError.mk ("address information lookup success")) := by
  cases cfg <;>
    simp [gai_err_to_io_err, gai_err_to_io_err_unix, gai_err_to_io_err_windows,
      gai_err_to_io_err_fallback, success_msg, EAI_SYSTEM]

/-- Shape of a successful `LookupError::new`: the kind is the classifier
result, the raw code is stored untranslated, and the inner error is the
resolver result. -/
theorem LookupError.new_eq_some (cfg : Cfg) (c : Int) (l : LookupError)
    (h : LookupError.new cfg c = some l) :
    l.kind = LookupErrorKind.new cfg c ∧ l.err_num = c
      ∧ gai_err_to_io_err cfg c = some l.inner := by
  simp only [LookupError.new, Option.map_eq_some'] at h
  obtain ⟨v, hg, hl⟩ := h
  subst hl
  exact ⟨rfl, rfl, hg⟩

/-- C1.  The public entry point maps `0` to success, and any nonzero
code to an error carrying that code untranslated and the kind assigned
by the active configuration's classifier. -/
theorem match_gai_error_contract :
    (∀ cfg : Cfg,
        LookupError.match_gai_error cfg 0 = some (Except.ok ()))
      ∧ (∀ (cfg : Cfg) (c : Int) (r : Except LookupError Unit), c ≠ 0 →
          LookupError.match_gai_error cfg c = some r →
          ∃ e : LookupError, r = Except.error e ∧ e.error_num = c
            ∧ e.kind = LookupErrorKind.new cfg c) := by
  constructor
  · intro cfg
    simp [LookupError.match_gai_error]
  · intro cfg c r hc hr
    simp only [LookupError.match_gai_error, if_neg hc] at hr
    cases hn : LookupError.new cfg c with
    | none => rw [hn] at hr; simp at hr
    | some l =>
      rw [hn] at hr
      simp only [Option.map_some', Option.some.injEq] at hr
      obtain ⟨hk, he, -⟩ := LookupError.new_eq_some cfg c l hn
      exact ⟨l, hr.symm, he, hk⟩

/-- C1 witness: the contract applied at the fallback configuration and
the concrete code `1`. -/
theorem match_gai_error_contract_witness :
    ∃ e : LookupError,
      (Except.error (LookupError.mk LookupErrorKind.Io 1
          (IoError.mk ("failed to lookup address information")))
        : Except LookupError Unit) = Except.error e
        ∧ e.error_num = 1 ∧ e.kind = LookupErrorKind.new Cfg.fallback 1 :=
  match_gai_error_contract.2 Cfg.fallback 1 _ (by decide) rfl

/-- C2.  Each entry of the POSIX table and of the Windows table is
classified to its documented kind, and any code outside the active
configuration's table is classified `IO`. -/
theorem classify_table_entries :
    (LookupErrorKind.new_unix EAI_AGAIN = LookupErrorKind.Again
      ∧ LookupErrorKind.new_unix EAI_BADFLAGS = LookupErrorKind.Badflags
      ∧ LookupErrorKind.new_unix EAI_FAIL = LookupErrorKind.Fail
      ∧ LookupErrorKind.new_unix EAI_FAMILY = LookupErrorKind.Family
      ∧ LookupErrorKind.new_unix EAI_MEMORY = LookupErrorKind.Memory
      ∧ LookupErrorKind.new_unix EAI_NONAME = LookupErrorKind.NoName
      ∧ LookupErrorKind.new_unix EAI_SERVICE = LookupErrorKind.Service
      ∧ LookupErrorKind.new_unix EAI_SOCKTYPE = LookupErrorKind.Socktype
      ∧ LookupErrorKind.new_unix EAI_SYSTEM = LookupErrorKind.System)
      ∧ (LookupErrorKind.new_windows (WSATRY_AGAIN : Int) = LookupErrorKind.Again
      ∧ LookupErrorKind.new_windows (WSAEINTVAL : Int) = LookupErrorKind.Badflags
      ∧ LookupErrorKind.new_windows (WSANO_RECOVERY : Int) = LookupErrorKind.Fail
      ∧ LookupErrorKind.new_windows (WSAEAFNOSUPPORT : Int) = LookupErrorKind.Family
      ∧ LookupErrorKind.new_windows (WSA_NOT_ENOUGH_MEMORY : Int) = LookupErrorKind.Memory
      ∧ LookupErrorKind.new_windows (WSAHOST_NOT_FOUND : Int) = LookupErrorKind.NoName
      ∧ LookupErrorKind.new_windows (WSANO_DATA : Int) = LookupErrorKind.NoData
      ∧ LookupErrorKind.new_windows (WSATYPE_NOT_FOUND : Int) = LookupErrorKind.Service
      ∧ LookupErrorKind.new_windows (WSAESOCKTNOSUPPORT : Int) = LookupErrorKind.Socktype)
      ∧ (∀ c : Int, c ∉ posix_gai_table →
          LookupErrorKind.new_unix c = LookupErrorKind.Io)
      ∧ (∀ c : Int, i32_as_u32 c ∉ windows_gai_table →
          LookupErrorKind.new_windows c = LookupErrorKind.Io) :=
  ⟨by decide, by decide, new_unix_of_not_mem_table, new_windows_of_not_mem_table⟩

/-- C2 witness: the out-of-table cases applied at the concrete code
`42`, absent from both tables. -/
theorem classify_table_entries_witness :
    LookupErrorKind.new_unix 42 = LookupErrorKind.Io
      ∧ LookupErrorKind.new_windows 42 = LookupErrorKind.Io :=
  ⟨classify_table_entries.2.2.1 42 (by decide),
   classify_table_entries.2.2.2 42 (by decide)⟩

/-- C7.  POSIX message resolution for a nonzero code: the `EAI_SYSTEM`
sentinel defers to the last OS error, and any other code renders the
decoded `gai_strerror` string behind the constant prefix. -/
theorem unix_nonzero_message (env : UnixEnv) (c : Int) (hc : c ≠ 0) :
    (c = EAI_SYSTEM →
        gai_err_to_io_err_unix env c = some env.lastOsError)
      ∧ (c ≠ EAI_SYSTEM → ∀ s : String, env.gaiStrerror c = some s →
          gai_err_to_io_err_unix env c
            = some (IoError.mk (failure_lead ++ s))) := by
  constructor
  · intro h
    subst h
    simp [gai_err_to_io_err_unix, EAI_SYSTEM]
  · intro h s hs
    simp [gai_err_to_io_err_unix, if_neg hc, if_neg h, hs]

/-- C7 witness: both branches at a concrete environment, with the codes
`-11` (the `EAI_SYSTEM` value) and `-3`. -/
theorem unix_nonzero_message_witness :
    gai_err_to_io_err_unix sampleUnixEnv (-11) = some sampleUnixEnv.lastOsError
      ∧ gai_err_to_io_err_unix sampleUnixEnv (-3)
        = some (IoError.mk (failure_lead ++ ("detail"))) :=
  ⟨(unix_nonzero_message sampleUnixEnv (-11) (by decide)).1 (by decide),
   (unix_nonzero_message sampleUnixEnv (-3) (by decide)).2 (by decide)
     ("detail") rfl⟩

/-- C8.  Two constructions from the same code under the same platform,
with possibly different OS state, agree on kind and on raw code. -/
theorem construction_two_run_stable :
    (∀ (e1 e2 : UnixEnv) (c : Int) (l1 l2 : LookupError),
        LookupError.new (Cfg.unix e1) c = some l1 →
        LookupError.new (Cfg.unix e2) c = some l2 →
        l1.kind = l2.kind ∧ l1.err_num = l2.err_num)
      ∧ (∀ (w1 w2 : WinEnv) (c : Int) (l1 l2 : LookupError),
          LookupError.new (Cfg.windows w1) c = some l1 →
          LookupError.new (Cfg.windows w2) c = some l2 →
          l1.kind = l2.kind ∧ l1.err_num = l2.err_num) := by
  constructor
  · intro e1 e2 c l1 l2 h1 h2
    obtain ⟨hk1, he1, -⟩ := LookupError.new_eq_some _ c l1 h1
    obtain ⟨hk2, he2, -⟩ := LookupError.new_eq_some _ c l2 h2
    exact ⟨hk1.trans hk2.symm, he1.trans he2.symm⟩
  · intro w1 w2 c l1 l2 h1 h2
    obtain ⟨hk1, he1, -⟩ := LookupError.new_eq_some _ c l1 h1
    obtain ⟨hk2, he2, -⟩ := LookupError.new_eq_some _ c l2 h2
    exact ⟨hk1.trans hk2.symm, he1.trans he2.symm⟩

/-- C8 witness: two POSIX runs at the code `-3` under two environments
that differ in both OS-state fields. -/
theorem construction_two_run_stable_witness :
    (LookupError.mk LookupErrorKind.Again (-3)
        (IoError.mk (failure_lead ++ ("detail")))).kind
      = (LookupError.mk LookupErrorKind.Again (-3)
        (IoError.mk (failure_lead ++ ("other detail")))).kind
      ∧ (LookupError.mk LookupErrorKind.Again (-3)
        (IoError.mk (failure_lead ++ ("detail")))).err_num
      = (LookupError.mk LookupErrorKind.Again (-3)
        (IoError.mk (failure_lead ++ ("other detail")))).err_num :=
  construction_two_run_stable.1 sampleUnixEnv sampleUnixEnv2 (-3)
    (LookupError.mk LookupErrorKind.Again (-3)
      (IoError.mk (failure_lead ++ ("detail"))))
    (LookupError.mk LookupErrorKind.Again (-3)
      (IoError.mk (failure_lead ++ ("other detail"))))
    (by decide) (by decide)

/-- C9.  Message resolution, construction and the entry point always
return a value, except that POSIX message resolution fails exactly when
the code is neither `0` nor `EAI_SYSTEM` and the platform `gai_strerror`
string is not valid UTF-8; under a valid-UTF-8 environment nothing
fails. -/
theorem resolution_total_except_utf8 :
    (∀ (env : WinEnv) (c : Int),
        (gai_err_to_io_err (Cfg.windows env) c).isSome)
      ∧ (∀ c : Int, (gai_err_to_io_err Cfg.fallback c).isSome)
      ∧ (∀ (env : UnixEnv) (c : Int), (env.gaiStrerror c).isSome →
          (gai_err_to_io_err (Cfg.unix env) c).isSome)
      ∧ (∀ (cfg : Cfg) (c : Int), (gai_err_to_io_err cfg c).isSome →
          (LookupError.new cfg c).isSome
            ∧ (LookupError.match_gai_error cfg c).isSome)
      ∧ (∀ (env : UnixEnv) (c : Int), gai_err_to_io_err_unix env c = none →
          c ≠ 0 ∧ c ≠ EAI_SYSTEM ∧ env.gaiStrerror c = none) := by
  refine ⟨fun env c => rfl, fun c => rfl, ?_, ?_, ?_⟩
  · intro env c h
    simp only [gai_err_to_io_err, gai_err_to_io_err_unix]
    split
    · simp
    · split
      · simp
      · cases hg : env.gaiStrerror c with
        | none => rw [hg] at h; simp at h
        | some s => simp
  · intro cfg c h
    cases hg : gai_err_to_io_err cfg c with
    | none => rw [hg] at h; simp at h
    | some v =>
      constructor
      · simp [LookupError.new, hg]
      · by_cases hc : c = 0 <;>
          simp [LookupError.match_gai_error, LookupError.new, hg, hc]
  · intro env c h
    simp only [gai_err_to_io_err_unix] at h
    by_cases h0 : c = 0
    · simp [h0] at h
    by_cases hs : c = EAI_SYSTEM
    · rw [if_neg h0, if_pos hs] at h
      simp at h
    refine ⟨h0, hs, ?_⟩
    rw [if_neg h0, if_neg hs] at h
    cases hg : env.gaiStrerror c with
    | none => rfl
    | some s => rw [hg] at h; simp at h

/-- C9 witness: the POSIX no-panic parts applied at a concrete
valid-UTF-8 environment and the code `5`. -/
theorem resolution_total_except_utf8_witness :
    (gai_err_to_io_err (Cfg.unix sampleUnixEnv) 5).isSome
      ∧ (LookupError.new (Cfg.unix sampleUnixEnv) 5).isSome :=
  ⟨resolution_total_except_utf8.2.2.1 sampleUnixEnv 5 rfl,
   (resolution_total_except_utf8.2.2.2.1 (Cfg.unix sampleUnixEnv) 5
     (resolution_total_except_utf8.2.2.1 sampleUnixEnv 5 rfl)).1⟩

/-- C10.  The Windows classifier matches on the unsigned 32-bit
reinterpretation of its input: the result depends only on the code
modulo 2^32, a negative 32-bit code classifies like its wrapped value,
and every negative 32-bit code wraps above the table constants and so
falls to `IO`. -/
theorem windows_classifier_wraps_u32 :
    (∀ c1 c2 : Int, c1 % (2 : Int) ^ 32 = c2 % (2 : Int) ^ 32 →
        LookupErrorKind.new_windows c1 = LookupErrorKind.new_windows c2)
      ∧ (∀ c : Int, -((2 : Int) ^ 31) ≤ c → c < 0 →
          LookupErrorKind.new_windows c
            = LookupErrorKind.new_windows (c + (2 : Int) ^ 32))
      ∧ (∀ c : Int, -((2 : Int) ^ 31) ≤ c → c < 0 →
          LookupErrorKind.new_windows c = LookupErrorKind.Io) := by
  have h1 : ∀ c1 c2 : Int, c1 % (2 : Int) ^ 32 = c2 % (2 : Int) ^ 32 →
      LookupErrorKind.new_windows c1 = LookupErrorKind.new_windows c2 := by
    intro c1 c2 h
    simp only [LookupErrorKind.new_windows, i32_as_u32, h]
  refine ⟨h1, fun c hl hu => h1 c (c + (2 : Int) ^ 32) (by omega),
    fun c hl hu => new_windows_of_not_mem_table c ?_⟩
  intro hmem
  have h2 : (2147483648 : Nat) ≤ i32_as_u32 c := by
    simp only [i32_as_u32]
    omega
  simp only [windows_gai_table, WSATRY_AGAIN, WSAEINTVAL, WSANO_RECOVERY,
    WSAEAFNOSUPPORT, WSA_NOT_ENOUGH_MEMORY, WSAHOST_NOT_FOUND, WSANO_DATA,
    WSATYPE_NOT_FOUND, WSAESOCKTNOSUPPORT,
    List.mem_cons, List.not_mem_nil, or_false] at hmem
  rcases hmem with h | h | h | h | h | h | h | h | h <;> omega

/-- C10 witness: the wrap applied at the concrete code `-1`, whose
unsigned reinterpretation is `4294967295`. -/
theorem windows_classifier_wraps_u32_witness :
    LookupErrorKind.new_windows (-1)
        = LookupErrorKind.new_windows 4294967295
      ∧ LookupErrorKind.new_windows (-1) = LookupErrorKind.Io :=
  ⟨windows_classifier_wraps_u32.1 (-1) 4294967295 (by decide),
   windows_classifier_wraps_u32.2.2 (-1) (by decide) (by decide)⟩
